import Mathlib

/-!
# Verification of `src/MDAF_benchmarks/objective_function.py`

Shallow embedding of the evaluation engine of `ObjectiveFunction`:
the instrumented serial evaluator (`__evaluate` under `count_calls`),
the decoupled worker-side evaluator produced by `__decouple_evaluate` /
`__decouple_shift_noise`, the worker-pool dispatcher `parallel_evaluate`
with its NaN-prefilled result collection, the staging-file lifecycle
(`DECOUPLED_FUNCTION_PATH`, `__delete_decoupled_evaluate`), `apply_shift`,
`apply_noise`, `check_constraints`, and `save` / `load`.

Modelling conventions:
* Python float values are modelled as integers `ℤ`.  Every arithmetic
  operation on the verified code paths is addition, subtraction,
  multiplication or an order comparison, all of which `ℤ` supports exactly;
  rounding behaviour of IEEE floats is out of scope.
* A 1-D numpy array is a `List ℤ`; numpy broadcasting of binary operations
  on 1-D arrays is `npBroadcast2` (equal lengths, or either side of
  length 1, otherwise a `ValueError`).
* A numpy result that may be either a 0-d scalar or a 1-D array is an
  `NpValue`.
* Exceptions are `Except PyErr`; `np.random.randn` samples are supplied by
  an explicit oracle `ℕ → ℤ` (one sample per index drawn), so that
  zero-variance claims hold for every oracle.
* An entry of the `parallel_evaluate` results vector is an `Option ℤ`:
  `none` is the `np.nan` sentinel that `np.full(len(positions), np.nan)`
  pre-fills, `some v` a numeric result written by a completed task.
* The benchmark formulas live in concrete subclasses (outside this file's
  source); a formula is an entry of a `Registry` mapping a class identifier
  to `evaluate(position, parameters)`, which may itself raise.
-/

deriving instance DecidableEq for Except

namespace MDAF

/-- Exceptions raised on the modelled code paths. -/
inductive PyErr where
  /-- numpy: operands could not be broadcast together. -/
  | broadcastMismatch
  /-- numpy: the truth value of an array with more than one element is ambiguous. -/
  | ambiguousTruth
  /-- `ValueError` raised by `check_constraints` when no bounds are defined. -/
  | noBounds
  /-- an exception raised inside a concrete benchmark formula. -/
  | formulaError
  /-- `pickle.PicklingError`: an instance dict member cannot be serialised. -/
  | picklingError
  deriving DecidableEq, Repr

/-- numpy stretching of a length-1 operand over the other operand; operands
of distinct lengths neither of which is 1 raise. -/
def npStretch {γ : Type} (op : ℤ → ℤ → γ) :
    List ℤ → List ℤ → Except PyErr (List γ)
  | [x], bs => .ok (bs.map (fun y => op x y))
  | as, [y] => .ok (as.map (fun x => op x y))
  | _, _ => .error .broadcastMismatch

/-- numpy broadcasting of a binary operation over 1-D arrays: elementwise for
equal lengths, a length-1 operand is stretched, anything else raises. -/
def npBroadcast2 {γ : Type} (op : ℤ → ℤ → γ) (a b : List ℤ) :
    Except PyErr (List γ) :=
  if a.length = b.length then .ok (List.zipWith op a b)
  else npStretch op a b

/-- A numpy value: a 0-d scalar or a 1-D array. -/
inductive NpValue where
  | scalar : ℤ → NpValue
  | vec : List ℤ → NpValue
  deriving DecidableEq, Repr

/-- The registered benchmark formulas: class identifier ↦
`evaluate(position, parameters)`.  A concrete formula may raise
(e.g. an out-of-domain argument), hence the `Except`. -/
abbrev Registry := ℕ → List ℤ → List (String × ℤ) → Except PyErr ℤ

/-- The state of an `ObjectiveFunction` instance: the attributes set by the
subclass constructors and by `ObjectiveFunction.__init__`
(`shift`, `noise_mean`, `noise_variance`, `nb_calls`), plus the dynamic
settings injected by `validate_settings`.  `formulaId` stands for the
concrete subclass, i.e. which `evaluate` formula the instance carries. -/
structure ObjectiveFunctionState where
  ndim : ℕ
  formulaId : ℕ
  search_space_bounds : List (ℤ × ℤ)
  optimal_solution_position : Option (List ℤ)
  parameters : List (String × ℤ)
  settings : List (String × ℤ)
  shift : List ℤ
  noise_mean : ℤ
  noise_variance : ℤ
  nb_calls : ℕ
  deriving DecidableEq, Repr

/-- Model of `ObjectiveFunction.__evaluate` under the `count_calls` decorator:
increments `nb_calls`, then returns
`self.evaluate(position - self.shift) + self.noise_mean
 + np.random.randn(position.shape[0]) * self.noise_variance`.
The subtraction broadcasts; the scalar formula value plus the
`position.shape[0]`-sized noise array broadcasts to a 1-D array whose entry
`i` is `base + noise_mean + randn_i * noise_variance`.  Exceptions
propagate (there is no handler in `__evaluate`), but the counter was
already incremented by the decorator. -/
def evaluateInstr (reg : Registry) (f : ObjectiveFunctionState)
    (randn : ℕ → ℤ) (position : List ℤ) :
    Except PyErr NpValue × ObjectiveFunctionState :=
  let f' := { f with nb_calls := f.nb_calls + 1 }
  match npBroadcast2 (· - ·) position f.shift with
  | .error e => (.error e, f')
  | .ok shifted =>
    match reg f.formulaId shifted f.parameters with
    | .error e => (.error e, f')
    | .ok base =>
      (.ok (.vec ((List.range position.length).map
        (fun i => base + f.noise_mean + randn i * f.noise_variance))), f')

/-- The worker-side function written by `__decouple_evaluate`: the formula
source with `self.parameters[...]` replaced by the current literal values,
prefixed (when any shift component is non-zero) by `position += shift` as
injected by `__decouple_shift_noise`, and (when `noise_mean or
noise_variance` is truthy) with `+ noise_mean + np.random.randn() *
noise_variance` appended to the return expression.  `randnSample` is the
single scalar sample the worker draws. -/
def decoupledEvaluate (reg : Registry) (f : ObjectiveFunctionState)
    (randnSample : ℤ) (position : List ℤ) : Except PyErr ℤ := do
  let position' ←
    if f.shift.any (fun x => x ≠ 0) then npBroadcast2 (· + ·) position f.shift
    else pure position
  let base ← reg f.formulaId position' f.parameters
  pure (if f.noise_mean ≠ 0 ∨ f.noise_variance ≠ 0 then
          base + f.noise_mean + randnSample * f.noise_variance
        else base)

/-- The `as_completed` collection loop of `parallel_evaluate`: for each
completed future, in completion order, write `future.result()` into the
results vector at the task's original index; an exception from
`future.result()` is caught and logged, leaving that slot untouched. -/
def collectResults (outcome : ℕ → Except PyErr ℤ) :
    List ℕ → List (Option ℤ) → List (Option ℤ)
  | [], results => results
  | i :: rest, results =>
    match outcome i with
    | .ok v => collectResults outcome rest (results.set i (some v))
    | .error _ => collectResults outcome rest results

/-- The task submitted for index `i`: `decoupled_evaluate(positions[i])`,
where `decoupled_evaluate` is the callable the earlier import bound —
`dispatched i` is that callable as executed by the worker which received
task `i` (its own `randn` draws included). -/
def taskOutcome (dispatched : ℕ → List ℤ → Except PyErr ℤ)
    (positions : List (List ℤ)) (i : ℕ) : Except PyErr ℤ :=
  match positions[i]? with
  | some p => dispatched i p
  | none => .error .formulaError

/-- Model of `ObjectiveFunction.parallel_evaluate`, executor phase: one
submitted task per position applying the imported callable, results
pre-filled with the NaN sentinel (`np.full(len(positions), np.nan)`, here
`replicate _ none`), then the collection loop over the completion order of
the futures. -/
def parallel_evaluate (dispatched : ℕ → List ℤ → Except PyErr ℤ)
    (positions : List (List ℤ)) (order : List ℕ) : List (Option ℤ) :=
  collectResults (taskOutcome dispatched positions) order
    (List.replicate positions.length none)

/-- The module-level constant `DECOUPLED_FUNCTION_PATH`: where
`__decouple_evaluate` writes the staged function. -/
def DECOUPLED_FUNCTION_PATH : String :=
  "./src/objective_functions/tmp/decoupled_evaluate.py"

/-- The file resolved by the statement
`from MDAF_benchmarks.tmp.decoupled_evaluate import evaluate`: Python
module resolution is name-based, so the module named
`MDAF_benchmarks.tmp.decoupled_evaluate` lives under a `MDAF_benchmarks`
package directory — not at the staging path the writer used. -/
def IMPORTED_MODULE_PATH : String :=
  "./MDAF_benchmarks/tmp/decoupled_evaluate.py"

/-- The staging path used by call number `callId` of `parallel_evaluate`:
every call writes to the same module-level constant path. -/
def stagingPath (_callId : ℕ) : String := DECOUPLED_FUNCTION_PATH

/-- Model of `ObjectiveFunction.__delete_decoupled_evaluate`: remove the
staging file if it exists; in either case it no longer exists afterwards. -/
def deleteDecoupledEvaluate (_exists : Bool) : Bool := false

/-- Model of `parallel_evaluate` including the staging-file lifecycle and
the import that selects the dispatched callable.  The boolean filesystem
state records whether the staging artifact exists.  `__decouple_evaluate`
writes the freshly decoupled function to `DECOUPLED_FUNCTION_PATH`; the
subsequent `from MDAF_benchmarks.tmp.decoupled_evaluate import evaluate`
resolves `IMPORTED_MODULE_PATH`, a different location, so the callable it
binds is whatever module is importable there (`importedModule`, a stale
module's function) — never the just-written file.  If decoupling or that
module import raises (`importedModule = none`), the staging file is
deleted and the wrapped exception is raised.  Otherwise the executor phase
runs; on normal completion the staging file is deleted before returning,
but the final cleanup is not in a `finally` block, so an exception raised
during the executor phase (`executorOk = false`, e.g. the pool library's
`ValueError` for `max_workers < 1`) propagates with the staging artifact
still on disk. -/
def parallel_evaluate_fs
    (importedModule : Option (ℕ → List ℤ → Except PyErr ℤ))
    (positions : List (List ℤ)) (order : List ℕ)
    (executorOk : Bool) (_fs0 : Bool) :
    Except String (List (Option ℤ)) × Bool :=
  let fsStaged := true
  match importedModule with
  | none =>
    (.error "Failed to decouple the evaluate method",
     deleteDecoupledEvaluate fsStaged)
  | some dispatched =>
    if executorOk then
      (.ok (parallel_evaluate dispatched positions order),
       deleteDecoupledEvaluate fsStaged)
    else
      (.error "executor phase raised", fsStaged)

/-- Model of `ObjectiveFunction.apply_shift`: add the shift to the optimal solution
position (if one is set; numpy broadcasting applies) and store the shift
vector, replacing any previous one. -/
def apply_shift (f : ObjectiveFunctionState) (shift : List ℤ) :
    Except PyErr ObjectiveFunctionState :=
  match f.optimal_solution_position with
  | none => .ok { f with shift := shift }
  | some opt => do
    let opt' ← npBroadcast2 (· + ·) opt shift
    pure { f with optimal_solution_position := some opt', shift := shift }

/-- Model of `ObjectiveFunction.apply_noise`: store the noise parameters. -/
def apply_noise (f : ObjectiveFunctionState) (mean variance : ℤ) :
    ObjectiveFunctionState :=
  { f with noise_mean := mean, noise_variance := variance }

/-- Truth value of the ndarray `search_space_bounds` of shape `(n, 2)`, as
computed by Python's `not`: an empty array is falsy; an array with more
than one element (here `2 * n ≥ 2` elements whenever `n ≥ 1`) raises
`ValueError: the truth value of an array ... is ambiguous`. -/
def boundsTruthValue (bounds : List (ℤ × ℤ)) : Except PyErr Bool :=
  if bounds.length = 0 then .ok false else .error .ambiguousTruth

/-- The comparison expression of `check_constraints`:
`np.any((position < bounds[:, 0]) | (position > bounds[:, 1]))`. -/
def constraintViolationExpr (bounds : List (ℤ × ℤ)) (p : List ℤ) :
    Except PyErr Bool := do
  let lows ← npBroadcast2 (fun x l => decide (x < l)) p (bounds.map Prod.fst)
  let highs ← npBroadcast2 (fun x h => decide (h < x)) p (bounds.map Prod.snd)
  pure ((List.zipWith (fun a b => a || b) lows highs).any id)

/-- Model of `ObjectiveFunction.check_constraints`: first
`if not self.search_space_bounds: raise ValueError(...)` (Python truthiness
of the bounds ndarray), then the `np.any` comparison expression. -/
def check_constraints (f : ObjectiveFunctionState) (p : List ℤ) :
    Except PyErr Bool := do
  let t ← boundsTruthValue f.search_space_bounds
  if t = false then throw .noBounds
  else constraintViolationExpr f.search_space_bounds p

/-- The pickle artifact written by `ObjectiveFunction.save`: the full
instance dict. -/
structure PickledObjectiveFunction where
  ndim : ℕ
  formulaId : ℕ
  search_space_bounds : List (ℤ × ℤ)
  optimal_solution_position : Option (List ℤ)
  parameters : List (String × ℤ)
  settings : List (String × ℤ)
  shift : List ℤ
  noise_mean : ℤ
  noise_variance : ℤ
  nb_calls : ℕ
  deriving DecidableEq, Repr

/-- Kinds of members of a Python instance dict, as stdlib `pickle`
distinguishes them. -/
inductive PyMemberKind where
  /-- numbers, strings, arrays, dicts of plain values. -/
  | plainData
  /-- a function object defined inside another function. -/
  | localFunction
  deriving DecidableEq, Repr

/-- Whether stdlib `pickle` can serialise a member: plain data yes; a local
function object raises `PicklingError`. -/
def picklable : PyMemberKind → Bool
  | .plainData => true
  | .localFunction => false

/-- The derivative members `ObjectiveFunction.__init__` installs on every
instance: `first_derivative = grad(self.__evaluate)` and
`second_derivative = hessian(self.__evaluate)`, both function objects
autograd builds inside its wrappers, i.e. local functions. -/
def derivativeMembers : List PyMemberKind := [.localFunction, .localFunction]

/-- The plain-value part of the instance dict: the payload a successful
dump would carry. -/
def statePickle (f : ObjectiveFunctionState) : PickledObjectiveFunction :=
  ⟨f.ndim, f.formulaId, f.search_space_bounds, f.optimal_solution_position,
   f.parameters, f.settings, f.shift, f.noise_mean, f.noise_variance,
   f.nb_calls⟩

/-- Model of `ObjectiveFunction.save`: `pickle.dump(self, file)` serialises
the class reference and every member of the instance dict, raising
`PicklingError` at the first member it cannot serialise.  The dict always
contains the two derivative closures installed by `__init__` alongside the
plain-value state, so the dump raises before producing an artifact. -/
def save (f : ObjectiveFunctionState) :
    Except PyErr PickledObjectiveFunction :=
  if derivativeMembers.all picklable then .ok (statePickle f)
  else .error .picklingError

/-- Model of `ObjectiveFunction.load`: `pickle.load(f)` reconstructs the instance
from the serialised class reference and instance dict. -/
def load (d : PickledObjectiveFunction) : ObjectiveFunctionState :=
  ⟨d.ndim, d.formulaId, d.search_space_bounds, d.optimal_solution_position,
   d.parameters, d.settings, d.shift, d.noise_mean, d.noise_variance,
   d.nb_calls⟩

/-- A small registry of concrete benchmark formulas for the witnesses:
id 0 is the sphere `sum(x_i ** 2)`; id 1 is a formula with a restricted
domain that raises on any negative coordinate (e.g. a square root). -/
def demoRegistry : Registry := fun id pos _params =>
  match id with
  | 0 => .ok (pos.map (fun x => x * x)).sum
  | 1 =>
    if pos.any (fun x => x < 0) then .error .formulaError
    else .ok pos.sum
  | _ => .error .formulaError

/-- A plain sphere instance: `ndim = 2`, bounds `[(-5, 5), (-5, 5)]`,
no shift, no noise. -/
def sphereState : ObjectiveFunctionState :=
  { ndim := 2, formulaId := 0,
    search_space_bounds := [(-5, 5), (-5, 5)],
    optimal_solution_position := some [0, 0],
    parameters := [], settings := [],
    shift := [0, 0], noise_mean := 0, noise_variance := 0, nb_calls := 0 }

/-- A concrete candidate for the module importable at
`MDAF_benchmarks.tmp.decoupled_evaluate`: a stale decoupled module staged
by some earlier run, computing the coordinate sum, defined only for
non-negative coordinates (it raises otherwise). -/
def staleDomainModule : List ℤ → Except PyErr ℤ := fun p =>
  if p.any (fun x => x < 0) then .error .formulaError else .ok p.sum

/-! ## Helper lemmas about the collection loop -/

theorem collectResults_length (o : ℕ → Except PyErr ℤ) :
    ∀ (order : List ℕ) (res : List (Option ℤ)),
    (collectResults o order res).length = res.length := by
  intro order
  induction order with
  | nil => intro res; rfl
  | cons j rest ih =>
    intro res
    simp only [collectResults]
    split
    · rw [ih, List.length_set]
    · exact ih res

theorem collectResults_getElem?_of_not_mem (o : ℕ → Except PyErr ℤ) :
    ∀ (order : List ℕ) (res : List (Option ℤ)) (i : ℕ), i ∉ order →
    (collectResults o order res)[i]? = res[i]? := by
  intro order
  induction order with
  | nil => intro res i _; rfl
  | cons j rest ih =>
    intro res i hi
    have hij : j ≠ i := fun h => hi (h ▸ List.mem_cons_self j rest)
    have hrest : i ∉ rest := fun h => hi (List.mem_cons_of_mem j h)
    simp only [collectResults]
    split
    · rw [ih _ _ hrest, List.getElem?_set_ne hij]
    · exact ih _ _ hrest

theorem collectResults_getElem?_of_mem_ok (o : ℕ → Except PyErr ℤ) :
    ∀ (order : List ℕ) (res : List (Option ℤ)) (i : ℕ) (v : ℤ),
    order.Nodup → i ∈ order → o i = .ok v → i < res.length →
    (collectResults o order res)[i]? = some (some v) := by
  intro order
  induction order with
  | nil => intro res i v _ hi _ _; exact absurd hi (List.not_mem_nil i)
  | cons j rest ih =>
    intro res i v hnd hi hv hlen
    rcases List.mem_cons.mp hi with h | hmem
    · subst h
      have hrest : i ∉ rest := (List.nodup_cons.mp hnd).1
      simp only [collectResults, hv]
      rw [collectResults_getElem?_of_not_mem o rest _ i hrest,
        List.getElem?_set_self hlen]
    · have hnd' : rest.Nodup := (List.nodup_cons.mp hnd).2
      simp only [collectResults]
      split
      · exact ih _ i v hnd' hmem hv (by rwa [List.length_set])
      · exact ih _ i v hnd' hmem hv hlen

theorem collectResults_getElem?_of_mem_error (o : ℕ → Except PyErr ℤ) :
    ∀ (order : List ℕ) (res : List (Option ℤ)) (i : ℕ) (e : PyErr),
    order.Nodup → i ∈ order → o i = .error e →
    (collectResults o order res)[i]? = res[i]? := by
  intro order
  induction order with
  | nil => intro res i e _ hi _; exact absurd hi (List.not_mem_nil i)
  | cons j rest ih =>
    intro res i e hnd hi hv
    rcases List.mem_cons.mp hi with h | hmem
    · subst h
      have hrest : i ∉ rest := (List.nodup_cons.mp hnd).1
      simp only [collectResults, hv]
      exact collectResults_getElem?_of_not_mem o rest _ i hrest
    · have hnd' : rest.Nodup := (List.nodup_cons.mp hnd).2
      have hji : j ≠ i := fun h => (List.nodup_cons.mp hnd).1 (h ▸ hmem)
      simp only [collectResults]
      split
      · rw [ih _ i e hnd' hmem hv, List.getElem?_set_ne hji]
      · exact ih _ i e hnd' hmem hv

/-- With a zero shift vector and zero noise parameters,
`__decouple_shift_noise` injects neither the shift line nor the noise term,
so the worker-side function is exactly the registered formula at the frozen
parameters. -/
theorem decoupledEvaluate_plain (reg : Registry) (f : ObjectiveFunctionState)
    (rs : ℤ) (p : List ℤ)
    (hs : ∀ x ∈ f.shift, x = 0) (hm : f.noise_mean = 0)
    (hv : f.noise_variance = 0) :
    decoupledEvaluate reg f rs p = reg f.formulaId p f.parameters := by
  have hany : (f.shift.any (fun x => x ≠ 0)) = false := by
    simp only [List.any_eq_false, decide_eq_true_eq]
    intro x hx
    simpa using hs x hx
  rw [decoupledEvaluate]
  rw [hany]
  simp only [Bool.false_eq_true, if_false, pure_bind, hm, hv, ne_eq,
    not_true_eq_false, or_self, if_false, bind_pure]

/-! ## C1 -/

/-- C1 (code bug): `__decouple_evaluate` writes the freshly decoupled
function to `DECOUPLED_FUNCTION_PATH` (module constant, line 23) while
`parallel_evaluate` imports the module
`MDAF_benchmarks.tmp.decoupled_evaluate` (line 332), which resolves a
different location — so the current instance's decoupled function is never
the dispatched callable, and the claimed serial/parallel agreement is not
the program's behaviour.  At the spec's sphere scenario: with nothing
importable under the module name, the call raises the wrapped decoupling
exception instead of returning the serial values; with a stale module
importable (here an earlier run's coordinate-sum module), the batch
returns the stale values (`4` at `[2,2]`) while the serial evaluation is
`8` — even though the freshly staged function itself agrees with the
serial path (`.ok 8`), it is simply never the one imported. -/
theorem parallel_evaluate_never_dispatches_fresh :
    DECOUPLED_FUNCTION_PATH ≠ IMPORTED_MODULE_PATH ∧
    parallel_evaluate_fs none [[0, 0], [1, 1], [2, 2]] [0, 1, 2] true false
      = (.error "Failed to decouple the evaluate method", false) ∧
    parallel_evaluate_fs (some (fun _ => staleDomainModule)) [[2, 2]] [0]
      true false = (.ok [some 4], false) ∧
    (evaluateInstr demoRegistry sphereState (fun _ => 0) [2, 2]).1
      = .ok (.vec [8, 8]) ∧
    decoupledEvaluate demoRegistry sphereState 0 [2, 2] = .ok 8 ∧
    (4 : ℤ) ≠ 8 :=
  ⟨by decide, by decide, by decide, by decide, by decide, by decide⟩

/-! ## C2 -/

/-- C2: if, in a batch of `N` positions, exactly the task at index `j`
raises and every sibling task returns a value, `parallel_evaluate` returns
(rather than propagating the exception) a vector of `N` entries of which
the one at index `j` is the NaN sentinel and every other is numeric, for
every completion order and every dispatched worker callable. -/
theorem parallel_evaluate_single_failure
    (dispatched : ℕ → List ℤ → Except PyErr ℤ)
    (positions : List (List ℤ)) (order : List ℕ) (j : ℕ)
    (hj : j < positions.length)
    (hperm : order.Perm (List.range positions.length))
    (hfail : (taskOutcome dispatched positions j).toOption = none)
    (hok : ∀ i, i < positions.length → i ≠ j →
      (taskOutcome dispatched positions i).toOption.isSome) :
    (parallel_evaluate dispatched positions order).length =
      positions.length ∧
    (parallel_evaluate dispatched positions order)[j]? = some none ∧
    ∀ i, i < positions.length → i ≠ j →
      ∃ v : ℤ, (parallel_evaluate dispatched positions order)[i]? =
        some (some v) := by
  have hnd : order.Nodup := (hperm.nodup_iff).mpr (List.nodup_range _)
  refine ⟨?_, ?_, ?_⟩
  · rw [parallel_evaluate, collectResults_length, List.length_replicate]
  · have hmem : j ∈ order := hperm.mem_iff.mpr (List.mem_range.mpr hj)
    obtain ⟨e, he⟩ : ∃ e, taskOutcome dispatched positions j = .error e := by
      cases h : taskOutcome dispatched positions j with
      | ok v => rw [h] at hfail; exact absurd hfail (by simp [Except.toOption])
      | error e => exact ⟨e, rfl⟩
    rw [parallel_evaluate, collectResults_getElem?_of_mem_error _ order _ j e
      hnd hmem he, List.getElem?_replicate, if_pos hj]
  · intro i hi hij
    have hmem : i ∈ order := hperm.mem_iff.mpr (List.mem_range.mpr hi)
    obtain ⟨v, hv⟩ : ∃ v, taskOutcome dispatched positions i = .ok v := by
      cases h : taskOutcome dispatched positions i with
      | ok v => exact ⟨v, rfl⟩
      | error e =>
        have := hok i hi hij
        rw [h] at this
        exact absurd this (by simp [Except.toOption])
    exact ⟨v, by
      rw [parallel_evaluate, collectResults_getElem?_of_mem_ok _ order _ i v
        hnd hmem hv (by rw [List.length_replicate]; exact hi)]⟩

/-- Witness for C2: a domain-restricted worker callable (raises on a
negative coordinate) over three positions of which the middle one is out
of domain; the batch returns `[some 2, none, some 4]` for completion order
`[2,1,0]`: `N` entries, `N-1` numeric, the NaN sentinel exactly at the
failing index. -/
theorem parallel_evaluate_single_failure_witness :
    ((1:ℕ) < 3) ∧
    ((taskOutcome (fun _ => staleDomainModule)
        [[1,1],[-1,0],[2,2]] 1).toOption = none) ∧
    ((parallel_evaluate (fun _ => staleDomainModule)
        [[1,1],[-1,0],[2,2]] [2,1,0]).length =
      [[(1:ℤ),1],[-1,0],[2,2]].length ∧
     (parallel_evaluate (fun _ => staleDomainModule)
        [[1,1],[-1,0],[2,2]] [2,1,0])[1]? = some none ∧
     ∀ i, i < [[(1:ℤ),1],[-1,0],[2,2]].length → i ≠ 1 →
       ∃ v : ℤ, (parallel_evaluate (fun _ => staleDomainModule)
         [[1,1],[-1,0],[2,2]] [2,1,0])[i]? = some (some v)) :=
  ⟨by decide, by decide,
   parallel_evaluate_single_failure (fun _ => staleDomainModule)
     [[1,1],[-1,0],[2,2]] [2,1,0] 1 (by decide) (by decide) (by decide)
     (by decide)⟩

/-! ## C3 -/

/-- C3 (code bug): with noise zero and the non-zero shift `s = [1,1]` on
the sphere, the worker-side function written by `__decouple_shift_noise`
injects `position += shift` and so computes `formula(p + s) = 8` at
`p = [1,1]`, while the instance-side `__evaluate` computes
`formula(p - s) = 0`; the two disagree, against both the spec's
`formula(position - snapshot.shift)` contract and the serial path. -/
theorem decoupled_shift_sign_diverges :
    decoupledEvaluate demoRegistry { sphereState with shift := [1, 1] }
      0 [1, 1] = .ok 8 ∧
    (evaluateInstr demoRegistry { sphereState with shift := [1, 1] }
      (fun _ => 0) [1, 1]).1 = .ok (.vec [0, 0]) ∧
    decoupledEvaluate demoRegistry { sphereState with shift := [1, 1] }
      0 [1, 1] ≠ .ok 0 := by
  refine ⟨by decide, by decide, by decide⟩

/-! ## C4 -/

/-- C4 (counterexample): the staging artifact name is not call-scoped: two
distinct `parallel_evaluate` calls use the same module-level constant path
`DECOUPLED_FUNCTION_PATH`; and removal is not guaranteed on every exit
path: an exception during the executor phase (the final cleanup of the
source is not in a `finally` block) returns with the staging artifact
still on disk. -/
theorem staging_path_not_call_scoped :
    (stagingPath 0 = stagingPath 1 ∧ (0 : ℕ) ≠ 1) ∧
    (parallel_evaluate_fs (some (fun _ => staleDomainModule)) [[0, 0]] [0]
      false false).2 = true :=
  ⟨⟨rfl, by decide⟩, rfl⟩

/-- C4 (amended): every call stages through the one fixed module-level
path `DECOUPLED_FUNCTION_PATH` (not a call-scoped unique name).  The
staging artifact is deleted on the decoupling/import-failure exit and on
normal return of the batch, whatever the filesystem state before the
call; but the final cleanup is not in a `finally` block, so an exception
raised during the executor phase (e.g. the pool library's `ValueError`
for `max_workers < 1`) propagates with the artifact left on disk —
removal on every exit path does not hold. -/
theorem staging_artifact_lifecycle
    (importedModule : Option (ℕ → List ℤ → Except PyErr ℤ))
    (dispatched : ℕ → List ℤ → Except PyErr ℤ)
    (positions : List (List ℤ)) (order : List ℕ)
    (fs0 fs1 : Bool) (callId : ℕ) :
    stagingPath callId = DECOUPLED_FUNCTION_PATH ∧
    (parallel_evaluate_fs importedModule positions order true fs0).2 =
      false ∧
    (parallel_evaluate_fs (some dispatched) positions order false fs1).2 =
      true := by
  refine ⟨rfl, ?_, rfl⟩
  cases importedModule <;> rfl

/-! ## C5 -/

/-- C5 (counterexample): `parallel_evaluate` does not reject an empty
positions sequence: when a module is importable at the (stale) import
location the call returns normally with an empty results vector, and when
none is importable the raised error is the wrapped decoupling failure —
identical to the error raised for the spec's valid non-empty batch, hence
no rejection of emptiness either way. -/
theorem parallel_evaluate_accepts_empty :
    parallel_evaluate_fs (some (fun _ => staleDomainModule)) [] [] true
      false = (.ok [], false) ∧
    parallel_evaluate_fs none [] [] true false
      = parallel_evaluate_fs none [[0, 0], [1, 1], [2, 2]] [0, 1, 2] true
        false :=
  ⟨rfl, rfl⟩

/-- C5 (amended): `parallel_evaluate` performs no input validation before
dispatching.  Whatever callable the import bound: an empty batch returns
normally with an empty vector, and a position of the wrong length (here
length 3 against the sphere instance's `ndim = 2`) is dispatched to the
imported callable unvalidated, its outcome written to the batch.  With no
importable module, the raised error is the wrapped decoupling failure,
identical for every batch — it carries no input validation.
(`max_workers < 1` is rejected only inside the external pool library at
pool construction — an executor-phase exception — not by
`parallel_evaluate`'s own code.) -/
theorem parallel_evaluate_no_input_validation
    (dispatched : ℕ → List ℤ → Except PyErr ℤ) (fs0 : Bool)
    (positions positions' : List (List ℤ)) (order order' : List ℕ) :
    parallel_evaluate_fs (some dispatched) [] [] true fs0 =
      (.ok [], false) ∧
    parallel_evaluate_fs (some dispatched) [[1, 2, 3]] [0] true fs0 =
      (.ok [(dispatched 0 [1, 2, 3]).toOption], false) ∧
    ([(1:ℤ), 2, 3].length ≠ sphereState.ndim) ∧
    (parallel_evaluate_fs none positions order true fs0).1 =
      (parallel_evaluate_fs none positions' order' true fs0).1 := by
  refine ⟨rfl, ?_, by decide, rfl⟩
  show (Except.ok (parallel_evaluate dispatched [[1, 2, 3]] [0]), false) = _
  rw [parallel_evaluate]
  show (Except.ok (collectResults _ [0] [none]), false) = _
  rw [collectResults]
  have ht : taskOutcome dispatched [[1, 2, 3]] 0 = dispatched 0 [1, 2, 3] :=
    rfl
  rw [ht]
  cases h : dispatched 0 [1, 2, 3] with
  | ok v => rfl
  | error e => rfl

/-! ## C6 -/

/-- Equal-length operands broadcast elementwise. -/
theorem npBroadcast2_eq_len {γ : Type} (op : ℤ → ℤ → γ) (a b : List ℤ)
    (h : a.length = b.length) :
    npBroadcast2 op a b = .ok (List.zipWith op a b) := by
  rw [npBroadcast2, if_pos h]

/-- Subtracting an all-zero vector of the same length is the identity. -/
theorem zipWith_sub_all_zero :
    ∀ (l z : List ℤ), (∀ x ∈ z, x = 0) → l.length = z.length →
    List.zipWith (· - ·) l z = l := by
  intro l
  induction l with
  | nil => intro z _ _; rfl
  | cons a as ih =>
    intro z hz hlen
    cases z with
    | nil => simp at hlen
    | cons b bs =>
      have hb : b = 0 := hz b (List.mem_cons_self _ _)
      rw [List.zipWith_cons_cons, hb, sub_zero,
        ih bs (fun x hx => hz x (List.mem_cons_of_mem _ hx))
          (by simpa using hlen)]

/-- The fields `apply_shift` leaves intact, and the stored shift. -/
theorem apply_shift_fields (f f' : ObjectiveFunctionState) (s : List ℤ)
    (hap : apply_shift f s = .ok f') :
    f'.shift = s ∧ f'.formulaId = f.formulaId ∧
    f'.parameters = f.parameters ∧ f'.noise_mean = f.noise_mean ∧
    f'.noise_variance = f.noise_variance := by
  cases h : f.optimal_solution_position with
  | none =>
    simp only [apply_shift, h] at hap
    cases hap
    exact ⟨rfl, rfl, rfl, rfl, rfl⟩
  | some opt =>
    simp only [apply_shift, h] at hap
    cases hb : npBroadcast2 (· + ·) opt s with
    | error e =>
      rw [hb] at hap
      exact absurd hap (by simp [Bind.bind, Except.bind])
    | ok opt' =>
      rw [hb] at hap
      simp only [Bind.bind, Except.bind, pure, Except.pure,
        Except.ok.injEq] at hap
      subst hap
      exact ⟨rfl, rfl, rfl, rfl, rfl⟩

/-- C6: for every position `p` and shift vector `s` (of the instance
dimension), in the noise-free case, evaluating the instrumented evaluator
after `apply_shift(s)` at `p` gives the same value as evaluating the
unshifted instance at `p - s`, for any noise oracles. -/
theorem evaluate_after_apply_shift (reg : Registry)
    (f f' : ObjectiveFunctionState) (s p : List ℤ) (rnd rnd' : ℕ → ℤ)
    (h0 : ∀ x ∈ f.shift, x = 0)
    (hsl : s.length = f.shift.length)
    (hpl : p.length = f.shift.length)
    (hm : f.noise_mean = 0) (hv : f.noise_variance = 0)
    (hap : apply_shift f s = .ok f') :
    (evaluateInstr reg f' rnd p).1 =
      (evaluateInstr reg f rnd' (List.zipWith (· - ·) p s)).1 := by
  obtain ⟨hs', hid, hpar, hm', hv'⟩ := apply_shift_fields f f' s hap
  have hps : p.length = s.length := hpl.trans hsl.symm
  have hqlen : (List.zipWith (· - ·) p s).length = p.length := by
    rw [List.length_zipWith, hps, min_self]
  have hL : npBroadcast2 (· - ·) p f'.shift =
      .ok (List.zipWith (· - ·) p s) := by
    rw [hs']; exact npBroadcast2_eq_len _ _ _ hps
  have hR : npBroadcast2 (· - ·) (List.zipWith (· - ·) p s) f.shift =
      .ok (List.zipWith (· - ·) p s) := by
    rw [npBroadcast2_eq_len _ _ _ (by rw [hqlen, hpl]),
      zipWith_sub_all_zero _ _ h0 (by rw [hqlen, hpl])]
  cases hbase : reg f.formulaId (List.zipWith (· - ·) p s) f.parameters with
  | error e =>
    simp only [evaluateInstr, hL, hR, hid, hpar, hbase]
  | ok b =>
    simp only [evaluateInstr, hL, hR, hid, hpar, hbase, hm, hv, hm', hv',
      mul_zero, add_zero, hqlen]

/-- Witness for C6: the spec's concrete scenario extended: sphere shifted
by `[1,1]`, evaluated at `[3,4]`, equals the unshifted sphere at `[2,3]`
(both `f = 13` per coordinate of the broadcast noise array), for two
different noise oracles. -/
theorem evaluate_after_apply_shift_witness :
    (∀ x ∈ sphereState.shift, x = 0) ∧
    (apply_shift sphereState [1, 1] = .ok
      { sphereState with optimal_solution_position := some [1, 1],
                         shift := [1, 1] }) ∧
    ((evaluateInstr demoRegistry
        { sphereState with optimal_solution_position := some [1, 1],
                           shift := [1, 1] } (fun _ => 0) [3, 4]).1 =
      (evaluateInstr demoRegistry sphereState (fun _ => 7)
        (List.zipWith (· - ·) [3, 4] [1, 1])).1) ∧
    (evaluateInstr demoRegistry sphereState (fun _ => 7)
      (List.zipWith (· - ·) [3, 4] [1, 1])).1 = .ok (.vec [13, 13]) :=
  ⟨by decide, by decide,
   evaluate_after_apply_shift demoRegistry sphereState
     { sphereState with optimal_solution_position := some [1, 1],
                        shift := [1, 1] } [1, 1] [3, 4]
     (fun _ => 0) (fun _ => 7) (by decide) (by decide) (by decide) rfl rfl
     (by decide),
   by decide⟩

/-! ## C7 -/

/-- C7 (counterexample): with noise mean `3`, variance `0`, the
instrumented evaluation of the sphere at `[1,1]` is the ndim-sized array
`[5, 5]` — `formula(p) + m` broadcast against the `randn(ndim) * 0` noise
array — not the 0-d scalar `5` the claim states. -/
theorem evaluate_mean_not_scalar :
    (evaluateInstr demoRegistry { sphereState with noise_mean := 3 }
      (fun _ => 0) [1, 1]).1 = .ok (.vec [5, 5]) ∧
    (evaluateInstr demoRegistry { sphereState with noise_mean := 3 }
      (fun _ => 0) [1, 1]).1 ≠ .ok (.scalar 5) :=
  ⟨by decide, by decide⟩

/-- C7 (amended): with noise mean `m` and variance `0` on an unshifted
instance, the instrumented evaluation at `p` is the length-`p` array every
entry of which is `formula(p) + m`, and it is deterministic: any two noise
oracles give the same value. -/
theorem evaluate_variance_zero_deterministic (reg : Registry)
    (f : ObjectiveFunctionState) (rnd rnd₂ : ℕ → ℤ) (p : List ℤ)
    (base : ℤ)
    (hlen : p.length = f.shift.length)
    (hs : ∀ x ∈ f.shift, x = 0)
    (hv : f.noise_variance = 0)
    (hb : reg f.formulaId p f.parameters = .ok base) :
    (evaluateInstr reg f rnd p).1 =
      .ok (.vec (List.replicate p.length (base + f.noise_mean))) ∧
    (evaluateInstr reg f rnd p).1 = (evaluateInstr reg f rnd₂ p).1 := by
  have hL : npBroadcast2 (· - ·) p f.shift = .ok p := by
    rw [npBroadcast2_eq_len _ _ _ hlen, zipWith_sub_all_zero _ _ hs hlen]
  constructor
  · simp only [evaluateInstr, hL, hb, hv, mul_zero, add_zero]
    rw [List.map_const', List.length_range]
  · simp only [evaluateInstr, hL, hb, hv, mul_zero, add_zero]

/-- Witness for C7 (amended): sphere with noise mean `3`, variance `0`, at
`[1, 1]`: every entry is `2 + 3 = 5` under two different noise oracles. -/
theorem evaluate_variance_zero_deterministic_witness :
    ([(1:ℤ), 1].length = sphereState.shift.length) ∧
    (demoRegistry sphereState.formulaId [1, 1] sphereState.parameters =
      .ok 2) ∧
    ((evaluateInstr demoRegistry { sphereState with noise_mean := 3 }
        (fun _ => 5) [1, 1]).1 =
      .ok (.vec (List.replicate [(1:ℤ), 1].length
        (2 + ({ sphereState with noise_mean := 3 } :
          ObjectiveFunctionState).noise_mean))) ∧
     (evaluateInstr demoRegistry { sphereState with noise_mean := 3 }
        (fun _ => 5) [1, 1]).1 =
      (evaluateInstr demoRegistry { sphereState with noise_mean := 3 }
        (fun _ => 9) [1, 1]).1) :=
  ⟨by decide, by decide,
   evaluate_variance_zero_deterministic demoRegistry
     { sphereState with noise_mean := 3 } (fun _ => 5) (fun _ => 9)
     [1, 1] 2 (by decide) (by decide) rfl (by decide)⟩

/-! ## C8 -/

/-- Stretching fails when neither operand has length 1. -/
theorem npStretch_error {γ : Type} (op : ℤ → ℤ → γ) (a b : List ℤ)
    (h1 : a.length ≠ 1) (h2 : b.length ≠ 1) :
    npStretch op a b = .error .broadcastMismatch := by
  rcases a with _ | ⟨x, _ | ⟨x', xs⟩⟩ <;>
    rcases b with _ | ⟨y, _ | ⟨y', ys⟩⟩ <;> simp_all [npStretch]

/-- Broadcasting fails when the lengths differ and neither is 1. -/
theorem npBroadcast2_error {γ : Type} (op : ℤ → ℤ → γ) (a b : List ℤ)
    (hne : a.length ≠ b.length) (h1 : a.length ≠ 1) (h2 : b.length ≠ 1) :
    npBroadcast2 op a b = .error .broadcastMismatch := by
  rw [npBroadcast2, if_neg hne]
  exact npStretch_error op a b h1 h2

/-- C8 (counterexample): a position of length 1 against `ndim = 2` does not
make the wrapped evaluator fail: numpy broadcasting stretches it, and the
sphere instance evaluates `[3]` to `[18]` (`[3] - [0,0]` broadcast to
`[3,3]`, then `3² + 3²`). -/
theorem evaluate_length_one_broadcasts :
    ([(3:ℤ)].length ≠ sphereState.ndim) ∧
    (evaluateInstr demoRegistry sphereState (fun _ => 0) [3]).1 =
      .ok (.vec [18]) :=
  ⟨by decide, by decide⟩

/-- C8 (amended): a position whose length differs from `ndim`, with neither
length equal to 1, makes the wrapped evaluator fail with the numpy
broadcast error on `position - shift`, and the error is returned to the
invoking layer (there is no handler in `__evaluate`); when either length
is 1, numpy broadcasting silently evaluates the stretched position
instead. -/
theorem evaluate_dim_mismatch_raises (reg : Registry)
    (f : ObjectiveFunctionState) (rnd : ℕ → ℤ) (p : List ℤ)
    (hdim : f.shift.length = f.ndim)
    (hne : p.length ≠ f.ndim) (h1 : p.length ≠ 1) (h2 : f.ndim ≠ 1) :
    (evaluateInstr reg f rnd p).1 = .error .broadcastMismatch := by
  have hB : npBroadcast2 (· - ·) p f.shift = .error .broadcastMismatch :=
    npBroadcast2_error _ _ _ (by rw [hdim]; exact hne) h1
      (by rw [hdim]; exact h2)
  simp only [evaluateInstr, hB]

/-- Witness for C8 (amended): a length-3 position against the sphere's
`ndim = 2` raises the broadcast error. -/
theorem evaluate_dim_mismatch_raises_witness :
    (sphereState.shift.length = sphereState.ndim) ∧
    ([(1:ℤ), 2, 3].length ≠ sphereState.ndim) ∧
    ([(1:ℤ), 2, 3].length ≠ 1) ∧ (sphereState.ndim ≠ 1) ∧
    (evaluateInstr demoRegistry sphereState (fun _ => 0) [1, 2, 3]).1 =
      .error .broadcastMismatch :=
  ⟨by decide, by decide, by decide, by decide,
   evaluate_dim_mismatch_raises demoRegistry sphereState (fun _ => 0)
     [1, 2, 3] (by decide) (by decide) (by decide) (by decide)⟩

/-! ## C9 -/

/-- C9 (code bug): `pickle.dump(self, file)` must serialise every member of
the instance dict, which on every instance contains the autograd
derivative closures `first_derivative` / `second_derivative` installed by
`__init__` — local function objects stdlib pickle cannot serialise — so
`save(path)` raises `PicklingError` for every instance (the sphere
instance concretely) and the claimed save/load round-trip never occurs.
The plain-value state alone, had the dump carried it, would load back
identically and reproduce every subsequent evaluation — the claim's
intent, broken only by the unpicklable members. -/
theorem save_raises_picklingError :
    save sphereState = .error .picklingError ∧
    (∀ f : ObjectiveFunctionState, save f = .error .picklingError) ∧
    ∀ (f : ObjectiveFunctionState) (reg : Registry) (rnd : ℕ → ℤ)
      (p : List ℤ),
      load (statePickle f) = f ∧
      evaluateInstr reg (load (statePickle f)) rnd p =
        evaluateInstr reg f rnd p :=
  ⟨rfl, fun _ => rfl, fun _ _ _ _ => ⟨rfl, rfl⟩⟩

/-! ## C10 -/

/-- C10 (code bug): for the sphere instance with defined bounds
`[(-5,5), (-5,5)]`, `check_constraints([0,0])` does not return a boolean at
all: the guard `if not self.search_space_bounds:` asks for the truth value
of a `(2, 2)` ndarray, which numpy refuses as ambiguous, so the call
raises before the comparison. The comparison expression itself, the
evident intent, yields `False` at the in-bounds `[0,0]` and `True` at the
out-of-bounds `[6,0]` — `True` signalling a violation. -/
theorem check_constraints_guard_raises :
    check_constraints sphereState [0, 0] = .error .ambiguousTruth ∧
    constraintViolationExpr sphereState.search_space_bounds [0, 0] =
      .ok false ∧
    constraintViolationExpr sphereState.search_space_bounds [6, 0] =
      .ok true :=
  ⟨by decide, by decide, by decide⟩

end MDAF
